import Mathlib

/-!
Verification of the row-mapping / normalization core of
`TradeZella_to_SmartTraderAI_zip/tradezella_to_stb.py`.

The Python source works on raw cell values coming out of a pandas
DataFrame.  We embed:
  * Python string primitives (`strip`, `lower`, `split(',')`,
    `', '.join`, substring `in`, `str.replace('csid','cisd')`) as
    executable functions on `List Char` / `String`;
  * a raw cell as `Option String` (`none` models a pandas `NaN` /
    missing value, for which `pd.isna` is true);
  * the `Net P&L` cell as `Pnl` (missing key, a numeric value as a
    rational, or non-numeric text on which `float()` raises);
  * a parsed calendar date as `CalDate` (the permissive parser
    `pd.to_datetime` itself is an external collaborator, so `safe_date`'s
    result `Option CalDate` is the embedding's input);
  * the mapped output cell as `Value` (string or number).
-/

/-! ### Python string primitives -/

/-- Python's default whitespace set for `str.strip`:
space, tab, newline, carriage return, vertical tab, form feed. -/
def pySpace (c : Char) : Bool :=
  c = ' ' || c = '\t' || c = '\n' || c = '\r' || c.toNat = 11 || c.toNat = 12

/-- `str.strip()` on a character list: drop whitespace on both ends. -/
def stripChars (l : List Char) : List Char :=
  ((l.dropWhile pySpace).reverse.dropWhile pySpace).reverse

/-- `str.strip()`. -/
def pyStrip (s : String) : String := String.mk (stripChars s.toList)

/-- `str.lower()` (ASCII, which covers every value the tool compares). -/
def pyLower (s : String) : String := String.mk (s.toList.map Char.toLower)

/-- `str.split(',')` on a character list: split at every comma,
keeping empty pieces (Python semantics). -/
def pySplitChars : List Char → List (List Char)
  | [] => [[]]
  | c :: rest =>
    if c = ',' then [] :: pySplitChars rest
    else
      match pySplitChars rest with
      | [] => [[c]]
      | p :: ps => (c :: p) :: ps

/-- `str.split(',')`. -/
def pySplitComma (s : String) : List String :=
  (pySplitChars s.toList).map String.mk

/-- Contiguous-sublist test: does `needle` occur inside `l`? -/
def subListOf (needle : List Char) : List Char → Bool
  | [] => needle.isEmpty
  | c :: rest => needle.isPrefixOf (c :: rest) || subListOf needle rest

/-- Python's `needle in hay` substring test. -/
def pyContains (hay needle : String) : Bool :=
  subListOf needle.toList hay.toList

/-- Python's `', '.join(l)`. -/
def pyJoinCommaSpace : List String → String
  | [] => ""
  | x :: xs => xs.foldl (fun acc y => acc ++ ", " ++ y) x

/-- `str.replace('csid', 'cisd')`: left-to-right, non-overlapping
replacement of every occurrence (source line 82). -/
def replaceCsid : List Char → List Char
  | 'c' :: 's' :: 'i' :: 'd' :: rest => 'c' :: 'i' :: 's' :: 'd' :: replaceCsid rest
  | c :: rest => c :: replaceCsid rest
  | [] => []

/-- The typo normalisation of source line 82 lifted to `String`. -/
def normalizeCsid (s : String) : String := String.mk (replaceCsid s.toList)

/-! ### Entry-model classifier (source lines 56-94) -/

/-- The catch-all dropdown label. -/
def catch_all : String := "other (specify below)"

/-- `VALID_ENTRY_MODELS` (source lines 57-64), as a list; only
membership is ever used, mirroring the Python set. -/
def VALID_ENTRY_MODELS : List String :=
  ["3x entry", "advanced structure entry", "breakers",
   "catching the move of the day", "catching the move of the week",
   "change of delivery", "cisd", "displacement", "fail flip", "inversions",
   "fcr", "market structure shift", "inverted fvg", "mmem", "ny fx entry",
   "smm entry", "other (specify below)", "time based entry model 2",
   "time based entry model 1"]

/-- Source line 83: split the typo-normalised text on commas, strip and
lowercase every candidate. -/
def entry_candidates (s : String) : List String :=
  (pySplitComma (normalizeCsid s)).map (fun p => pyLower (pyStrip p))

/-- Source line 84: keep only candidates present in the vocabulary. -/
def entry_matched (s : String) : List String :=
  (entry_candidates s).filter (fun p => VALID_ENTRY_MODELS.contains p)

/-- Source line 85: drop the catch-all label from the matches. -/
def entry_non_other (s : String) : List String :=
  (entry_matched s).filter (fun m => m != catch_all)

/-- Source lines 87-88: the matched set covers the whole non-catch-all
vocabulary (`set(non_other) >= all_valid_non_other`). -/
def covers_all_models (l : List String) : Bool :=
  (VALID_ENTRY_MODELS.filter (fun m => m != catch_all)).all (fun m => l.contains m)

/-- `get_entry_model` (source lines 69-94): returns the
`(entry_model, other_specify)` pair.  `none` models `pd.isna(val)`. -/
def get_entry_model (val : Option String) : String × String :=
  match val with
  | none => (catch_all, "-")
  | some s =>
    if pyStrip s = "" then (catch_all, "-")
    else if covers_all_models (entry_non_other s) then (catch_all, "-")
    else
      match entry_non_other s with
      | [] => (catch_all, "-")
      | m :: rest => (m, if rest.isEmpty then "-" else pyJoinCommaSpace rest)

/-! ### Outcome classifier (source lines 97-111) -/

/-- The raw `Net P&L` cell as seen through `row.get('Net P&L', 0)` and
`float(...)`: the key may be missing, hold a numeric value, or hold text
on which `float()` raises `ValueError`. -/
inductive Pnl
  | missing
  | num (q : Rat)
  | nonNum (str : String)
  deriving DecidableEq

/-- Source lines 100-104: the missing-key default `0` and the
`try: float(pnl) except: pnl = 0` coercion. -/
def pnl_as_float : Pnl → Rat
  | .missing => 0
  | .num q => q
  | .nonNum _ => 0

/-- The branch chain of source lines 105-111, over the normalised
status `st` and the coerced `pnl` value. -/
def get_outcome_core (st : String) (p : Rat) : String :=
  if st = "breakeven" ∨ p = 0 then "breakeven"
  else if st = "win" ∨ p > 0 then "green"
  else if st = "loss" ∨ p < 0 then "red"
  else ""

/-- `get_outcome` (source lines 97-111) over the status cell
(`row.get('Status', '')`; `none` = key absent) and the `Net P&L` cell:
lines 99-104 bind the normalised status and coerced pnl, lines 105-111
branch on them. -/
def get_outcome (status : Option String) (pnl : Pnl) : String :=
  get_outcome_core (pyLower (pyStrip (status.getD ""))) (pnl_as_float pnl)

/-! ### Yes/no normalizer (source lines 114-128) -/

/-- Source lines 121-128: the checks over the normalised value `v`. -/
def normalize_yesno_core (v : String) : String :=
  if pyContains v "yes" && pyContains v "no" then ""
  else if v = "true" ∨ v = "yes" ∨ v = "1" ∨ v = "y" then "yes"
  else if v = "false" ∨ v = "no" ∨ v = "0" ∨ v = "n" then "no"
  else ""

/-- `normalize_yesno` (source lines 114-128) on the stringified cell
`str(val)`: line 120 normalises, lines 121-128 branch. -/
def normalize_yesno (val : String) : String :=
  normalize_yesno_core (pyLower (pyStrip val))

/-! ### Scalar coercion helpers (source lines 131-150) -/

/-- `safe_str` (source lines 131-136): `none` models `pd.isna(val)`. -/
def safe_str (val : Option String) : String :=
  match val with
  | none => ""
  | some s =>
    let t := pyStrip s
    if pyLower t = "nan" then "" else t

/-- A calendar date, the result type of the external permissive parser
used by `safe_date` (source lines 139-144). -/
structure CalDate where
  year : Nat
  month : Nat
  day : Nat
  deriving DecidableEq

/-- `strftime` zero-padded two-digit field (`%m`, `%d`). -/
def pad2 (n : Nat) : String :=
  if n < 10 then "0" ++ toString n else toString n

/-- `strftime` zero-padded four-digit year field (`%Y`). -/
def pad4 (n : Nat) : String :=
  if n < 10 then "000" ++ toString n
  else if n < 100 then "00" ++ toString n
  else if n < 1000 then "0" ++ toString n
  else toString n

/-- `format_date` (source lines 147-150): `d.strftime('%Y-%m-%d')` on
the parsed date, `''` when `safe_date` returned `None`. -/
def format_date : Option CalDate → String
  | none => ""
  | some d => pad4 d.year ++ "-" ++ pad2 d.month ++ "-" ++ pad2 d.day

/-! ### Row mapper (source lines 155-174) -/

/-- One source record, with each raw cell embedded at the type
`map_row`'s accesses give it: `none` is a missing/NaN cell. -/
structure SourceRecord where
  openDate : Option CalDate
  entryModel : Option String
  status : Option String
  netPnl : Pnl
  emotions : Option String
  emotionsAffect : Option String
  emotionallyStable : Option String
  profitTarget : Option String
  stopLoss : Option String
  entryLogic : Option String
  playOut : Option String
  notes : Option String
  deriving DecidableEq

/-- A mapped output cell: a string, or the raw `Net P&L` number. -/
inductive Value
  | s (str : String)
  | n (q : Rat)
  deriving DecidableEq

/-- Source line 163: `row.get('Net P&L', 0)` passed through raw —
the missing-key default is the number `0`. -/
def rawPnl : Pnl → Value
  | .missing => .n 0
  | .num q => .n q
  | .nonNum str => .s str

/-- `str(val)` for a cell handed to `normalize_yesno`: a missing cell
in a pandas row is `NaN`, whose `str()` is `"nan"`. -/
def cellText : Option String → String
  | none => "nan"
  | some s => s

/-- `map_row` (source lines 155-174): one ordered destination row. -/
def map_row (r : SourceRecord) : List Value :=
  [Value.s (format_date r.openDate),                             -- A: Trading Date
   Value.s (get_entry_model r.entryModel).1,                     -- B: Entry Model
   Value.s (get_entry_model r.entryModel).2,                     -- C: Other (Specify)
   Value.s "USD",                                                -- D: Currency
   rawPnl r.netPnl,                                              -- E: Profit / Loss
   Value.s (get_outcome r.status r.netPnl),                      -- F: Outcome
   Value.s (safe_str r.emotions),                                -- G: Emotions
   Value.s (normalize_yesno (cellText r.emotionsAffect)),        -- H
   Value.s (normalize_yesno (cellText r.emotionallyStable)),     -- I
   Value.s (safe_str r.profitTarget),                            -- J
   Value.s (safe_str r.stopLoss),                                -- K
   Value.s (safe_str r.entryLogic),                              -- L
   Value.s (safe_str r.playOut),                                 -- M
   Value.s (safe_str r.notes),                                   -- N
   Value.s ""]                                                   -- O: Screenshot URLs

/-! ### Sinks (source lines 179-235): the rows each sink persists -/

/-- The row payload the cloud-sheet sink uploads (source line 205). -/
def sheets_rows (rs : List SourceRecord) : List (List Value) :=
  rs.map map_row

/-- The row payload the local-file sink writes (source lines 230-232),
one mapped row per sheet row starting below the header. -/
def xlsx_rows (rs : List SourceRecord) : List (List Value) :=
  rs.map map_row

/-! ### Input filtering (source lines 262-270) -/

/-- How a stage of `main` can fail: an uncaught Python exception from a
DataFrame column lookup, or the documented report-and-`sys.exit(1)`
path. -/
inductive RunError
  | keyError (column : String)
  | fatalExit (msg : String)
  deriving DecidableEq

/-- A raw input row; only the `Open Date` cell matters to the filter
(`none` = `NaN`). -/
structure RawRow where
  openDate : Option String
  deriving DecidableEq

/-- A parsed input table: its column header and its rows. -/
structure RawTable where
  columns : List String
  rows : List RawRow
  deriving DecidableEq

/-- The per-row keep predicate of source line 266:
`pd.notna(df['Open Date']) & (df['Open Date'].astype(str).str.strip() != '')`. -/
def keep_open_date : Option String → Bool
  | none => false
  | some s => pyStrip s != ""

/-- The filter step of source line 266.  `df['Open Date']` raises an
uncaught `KeyError` when the column is absent from the header. -/
def filter_open_date (t : RawTable) : Except RunError (List RawRow) :=
  if t.columns.contains "Open Date" then
    Except.ok (t.rows.filter (fun r => keep_open_date r.openDate))
  else Except.error (RunError.keyError "Open Date")

/-- Source lines 258-266 composed: the CSV-existence check (which is
the documented fatal path) followed by the `Open Date` filter. -/
def load_filter (csvExists : Bool) (t : RawTable) : Except RunError (List RawRow) :=
  if csvExists then filter_open_date t
  else Except.error (RunError.fatalExit "CSV not found")

/-! ### Sink selection (source lines 276-287) -/

/-- The two sinks. -/
inductive Sink
  | cloud
  | file
  deriving DecidableEq

/-- The placeholder left in `SPREADSHEET_ID` before configuration
(source line 47). -/
def SPREADSHEET_ID_PLACEHOLDER : String := "YOUR_SPREADSHEET_ID_HERE"

/-- The output-mode choice of source lines 276-287: `--xlsx` first,
then `--sheets`, then the auto-detect on a configured spreadsheet id
and an existing credential file. -/
def choose_sink (xlsxFlag sheetsFlag : Bool) (sheetId : String)
    (credsExist : Bool) : Sink :=
  if xlsxFlag then Sink.file
  else if sheetsFlag then Sink.cloud
  else if sheetId ≠ SPREADSHEET_ID_PLACEHOLDER ∧ credsExist = true then Sink.cloud
  else Sink.file

/-! ### Spec-side definitions and concrete fixtures -/

/-- Spec-side date renderer, following the spec words for the cloud
sink: "the cloud-sheet sink renders as month/day/year text" (§4.4). -/
def format_date_mdy_spec : Option CalDate → String
  | none => ""
  | some d => toString d.month ++ "/" ++ toString d.day ++ "/" ++ toString d.year

/-- Spec-side date renderer, zero-padded month/day/year variant. -/
def format_date_mdy_padded_spec : Option CalDate → String
  | none => ""
  | some d => pad2 d.month ++ "/" ++ pad2 d.day ++ "/" ++ toString d.year

/-- Spec-side date renderer, following the spec words for the file
sink: "an ISO year-month-day string" (§4.4). -/
def format_date_iso_spec : Option CalDate → String
  | none => ""
  | some d => pad4 d.year ++ "-" ++ pad2 d.month ++ "-" ++ pad2 d.day

/-- A concrete source record with open date 2024-03-05. -/
def rExample : SourceRecord :=
  { openDate := some ⟨2024, 3, 5⟩, entryModel := none, status := some "Win",
    netPnl := .num 150, emotions := none, emotionsAffect := none,
    emotionallyStable := none, profitTarget := none, stopLoss := none,
    entryLogic := none, playOut := none, notes := none }

/-- A concrete input table: a valid row, a NaN date, a blank date. -/
def tExample : RawTable :=
  { columns := ["Open Date", "Status", "Net P&L"],
    rows := [⟨some "2024-03-05"⟩, ⟨none⟩, ⟨some "  "⟩] }

/-- A concrete input table whose header lacks the `Open Date` column. -/
def tNoDate : RawTable :=
  { columns := ["Status", "Net P&L"], rows := [⟨some "2024-03-05"⟩] }

/-- Every upper/lower casing of the four letters of "csid". -/
def csid_casings : List String :=
  ["csid", "csiD", "csId", "csID", "cSid", "cSiD", "cSId", "cSID",
   "Csid", "CsiD", "CsId", "CsID", "CSid", "CSiD", "CSId", "CSID"]

/-! ### Claim theorems -/

/-- Claim C1: for every raw cell value, the entry-model classifier
returns `(primary, overflow)` per the §4.1 contract: a missing/NaN
cell, a blank cell, a cell whose matched non-catch-all candidates
cover the whole non-catch-all vocabulary, and a cell with no
non-catch-all vocabulary match all yield `(catch-all, "-")`;
otherwise the primary is the first match in original textual order and
the overflow joins the remaining matches with ", " when there are two
or more matches, else "-". -/
theorem get_entry_model_contract :
    (get_entry_model none = (catch_all, "-")) ∧
    (∀ s : String, pyStrip s = "" → get_entry_model (some s) = (catch_all, "-")) ∧
    (∀ s : String, covers_all_models (entry_non_other s) = true →
      get_entry_model (some s) = (catch_all, "-")) ∧
    (∀ s : String, entry_non_other s = [] → get_entry_model (some s) = (catch_all, "-")) ∧
    (∀ (s m : String) (rest : List String), pyStrip s ≠ "" →
      covers_all_models (entry_non_other s) = false →
      entry_non_other s = m :: rest →
      get_entry_model (some s) =
        (m, if rest.isEmpty then "-" else pyJoinCommaSpace rest)) := by
  refine ⟨rfl, ?_, ?_, ?_, ?_⟩
  · intro s hs; simp [get_entry_model, hs]
  · intro s hc
    by_cases hs : pyStrip s = "" <;> simp [get_entry_model, hs, hc]
  · intro s hn
    by_cases hs : pyStrip s = "" <;>
      by_cases hc : covers_all_models (entry_non_other s) = true <;>
        simp [get_entry_model, hs, hc, hn]
  · intro s m rest hs hc he
    rw [he] at hc
    simp [get_entry_model, hs, hc, he]

/-- Claim C1 witness: `"breakers, cisd"` classifies to primary
`"breakers"` with overflow `"cisd"`; a blank cell yields the
catch-all. -/
theorem get_entry_model_contract_witness :
    get_entry_model (some "breakers, cisd") = ("breakers", "cisd") ∧
    get_entry_model (some " ") = (catch_all, "-") := by
  refine ⟨?_, ?_⟩
  · exact get_entry_model_contract.2.2.2.2 "breakers, cisd" "breakers" ["cisd"]
      (by decide) (by decide) (by decide)
  · exact get_entry_model_contract.2.1 " " (by decide)

/-- Claim C2: the outcome classifier returns `"breakeven"` iff the
normalised status is "breakeven" or the coerced pnl is 0; else
`"green"` iff status is "win" or pnl > 0; else `"red"` iff status is
"loss" or pnl < 0; else `""` — in that branch order — and a missing or
non-numeric pnl coerces to 0. -/
theorem get_outcome_contract (status : Option String) (pnl : Pnl) :
    pnl_as_float Pnl.missing = 0 ∧
    (∀ t : String, pnl_as_float (Pnl.nonNum t) = 0) ∧
    (get_outcome status pnl = "breakeven" ↔
      (pyLower (pyStrip (status.getD "")) = "breakeven" ∨ pnl_as_float pnl = 0)) ∧
    (get_outcome status pnl = "green" ↔
      (¬(pyLower (pyStrip (status.getD "")) = "breakeven" ∨ pnl_as_float pnl = 0) ∧
       (pyLower (pyStrip (status.getD "")) = "win" ∨ pnl_as_float pnl > 0))) ∧
    (get_outcome status pnl = "red" ↔
      (¬(pyLower (pyStrip (status.getD "")) = "breakeven" ∨ pnl_as_float pnl = 0) ∧
       ¬(pyLower (pyStrip (status.getD "")) = "win" ∨ pnl_as_float pnl > 0) ∧
       (pyLower (pyStrip (status.getD "")) = "loss" ∨ pnl_as_float pnl < 0))) ∧
    (get_outcome status pnl = "" ↔
      (¬(pyLower (pyStrip (status.getD "")) = "breakeven" ∨ pnl_as_float pnl = 0) ∧
       ¬(pyLower (pyStrip (status.getD "")) = "win" ∨ pnl_as_float pnl > 0) ∧
       ¬(pyLower (pyStrip (status.getD "")) = "loss" ∨ pnl_as_float pnl < 0))) := by
  refine ⟨rfl, fun t => rfl, ?_, ?_, ?_, ?_⟩ <;>
    (unfold get_outcome get_outcome_core; split_ifs <;> simp_all)

/-- Claim C4: the yes/no normalizer returns `""` whenever the
normalised value contains both "yes" and "no" as substrings; otherwise
`"yes"` on membership in {"true","yes","1","y"}, `"no"` on membership
in {"false","no","0","n"} (memberships that in fact can never trip the
both-substrings override), and `""` otherwise. -/
theorem normalize_yesno_contract (val : String) :
    ((pyContains (pyLower (pyStrip val)) "yes"
        && pyContains (pyLower (pyStrip val)) "no") = true →
      normalize_yesno val = "") ∧
    (pyLower (pyStrip val) ∈ (["true", "yes", "1", "y"] : List String) →
      normalize_yesno val = "yes") ∧
    (pyLower (pyStrip val) ∈ (["false", "no", "0", "n"] : List String) →
      normalize_yesno val = "no") ∧
    ((pyContains (pyLower (pyStrip val)) "yes"
        && pyContains (pyLower (pyStrip val)) "no") = false →
      pyLower (pyStrip val) ∉ (["true", "yes", "1", "y"] : List String) →
      pyLower (pyStrip val) ∉ (["false", "no", "0", "n"] : List String) →
      normalize_yesno val = "") := by
  unfold normalize_yesno
  refine ⟨?_, ?_, ?_, ?_⟩
  · intro h; simp [normalize_yesno_core, h]
  · intro h
    rcases (by simpa using h :
        pyLower (pyStrip val) = "true" ∨ pyLower (pyStrip val) = "yes" ∨
        pyLower (pyStrip val) = "1" ∨ pyLower (pyStrip val) = "y") with
      h1 | h1 | h1 | h1 <;> rw [h1] <;> decide
  · intro h
    rcases (by simpa using h :
        pyLower (pyStrip val) = "false" ∨ pyLower (pyStrip val) = "no" ∨
        pyLower (pyStrip val) = "0" ∨ pyLower (pyStrip val) = "n") with
      h1 | h1 | h1 | h1 <;> rw [h1] <;> decide
  · intro hb h1 h2
    simp only [List.mem_cons, List.not_mem_nil, or_false, not_or] at h1 h2
    simp [normalize_yesno_core, hb, h1.1, h1.2.1, h1.2.2.1, h1.2.2.2,
      h2.1, h2.2.1, h2.2.2.1, h2.2.2.2]

/-- Claim C4 witness: "Yes, No" (dropdown dump) yields `""`, "Y"
yields `"yes"`, "0" yields `"no"`. -/
theorem normalize_yesno_contract_witness :
    normalize_yesno "Yes, No" = "" ∧ normalize_yesno "Y" = "yes" ∧
    normalize_yesno "0" = "no" :=
  ⟨(normalize_yesno_contract "Yes, No").1 (by decide),
   (normalize_yesno_contract "Y").2.1 (by decide),
   (normalize_yesno_contract "0").2.2.1 (by decide)⟩

/-- Claim C5: for every source record the mapped row has exactly 15
positional values (14 plus the overflow column), with currency
`"USD"` at the currency column, the raw `Net P&L` value (default 0
when missing) at the profit/loss column, and `""` at the
screenshot-URL column. -/
theorem map_row_shape (r : SourceRecord) :
    (map_row r).length = 15 ∧
    (map_row r).get? 3 = some (Value.s "USD") ∧
    (map_row r).get? 4 = some (rawPnl r.netPnl) ∧
    rawPnl Pnl.missing = Value.n 0 ∧
    (map_row r).get? 14 = some (Value.s "") :=
  ⟨rfl, rfl, rfl, rfl, rfl⟩

/-- Claim C6: when the header has the `Open Date` column, the filter
keeps exactly the rows whose `Open Date` cell is present and non-blank
after stripping, so the output row count equals the number of such
rows. -/
theorem filter_rows_spec (t : RawTable)
    (h : t.columns.contains "Open Date" = true) :
    filter_open_date t =
      Except.ok (t.rows.filter (fun r => keep_open_date r.openDate)) ∧
    (t.rows.filter (fun r => keep_open_date r.openDate)).length
        = t.rows.countP (fun r => keep_open_date r.openDate) ∧
    (∀ r : RawRow, r ∈ t.rows.filter (fun r => keep_open_date r.openDate) ↔
        r ∈ t.rows ∧ keep_open_date r.openDate = true) ∧
    keep_open_date none = false ∧
    (∀ s : String, pyStrip s = "" → keep_open_date (some s) = false) ∧
    (∀ s : String, pyStrip s ≠ "" → keep_open_date (some s) = true) := by
  refine ⟨?_, ?_, ?_, rfl, ?_, ?_⟩
  · unfold filter_open_date; rw [if_pos h]
  · exact (List.countP_eq_length_filter _ _).symm
  · intro r; exact List.mem_filter
  · intro s hs; simp [keep_open_date, hs]
  · intro s hs; simp [keep_open_date, hs]

/-- Claim C6 witness: of three concrete rows (valid date, NaN date,
blank date) exactly the first survives the filter. -/
theorem filter_rows_spec_witness :
    filter_open_date tExample = Except.ok [⟨some "2024-03-05"⟩] ∧
    (tExample.rows.filter (fun r => keep_open_date r.openDate)).length
        = tExample.rows.countP (fun r => keep_open_date r.openDate) := by
  have h := filter_rows_spec tExample (by decide)
  exact ⟨h.1.trans (congrArg Except.ok (by decide)), h.2.1⟩

/-- Claim C7: an explicit `--xlsx` (resp. `--sheets`) flag alone
forces the file (resp. cloud) sink; with neither flag, the cloud sink
is chosen iff the spreadsheet id differs from the placeholder and the
credential file exists, else the file sink. -/
theorem choose_sink_policy :
    (∀ (sid : String) (ce : Bool), choose_sink true false sid ce = Sink.file) ∧
    (∀ (sid : String) (ce : Bool), choose_sink false true sid ce = Sink.cloud) ∧
    (∀ (sid : String) (ce : Bool), choose_sink false false sid ce =
        if sid ≠ SPREADSHEET_ID_PLACEHOLDER ∧ ce = true then Sink.cloud
        else Sink.file) :=
  ⟨fun _ _ => rfl, fun _ _ => rfl, fun _ _ => rfl⟩

/-- Claim C8: with both `--xlsx` and `--sheets` given, `--xlsx` wins
and the file sink is selected. -/
theorem choose_sink_xlsx_precedence :
    ∀ (sid : String) (ce : Bool), choose_sink true true sid ce = Sink.file :=
  fun _ _ => rfl

/-- Claim C9: the legacy-typo normalisation replaces `"csid"` by
`"cisd"` case-sensitively before splitting and lowercasing: `"csid"`
classifies to `("cisd", "-")`, while every other casing of the four
letters is left unreplaced and classifies to the catch-all with
overflow `"-"`. -/
theorem csid_typo_case_sensitive :
    get_entry_model (some "csid") = ("cisd", "-") ∧
    normalizeCsid "csid" = "cisd" ∧
    normalizeCsid "CSID" = "CSID" ∧
    (csid_casings.all (fun s =>
        (s == "csid") ||
        ((get_entry_model (some s)).1 == catch_all
          && (get_entry_model (some s)).2 == "-"))) = true := by
  decide

/-- Claim C10: when the parsed table's header lacks the `Open Date`
column, the filter step fails with an uncaught key-lookup error — not
with the documented report-and-exit path — and produces no output. -/
theorem missing_open_date_column_key_error (t : RawTable)
    (h : t.columns.contains "Open Date" = false) :
    load_filter true t = Except.error (RunError.keyError "Open Date") ∧
    (∀ msg : String, load_filter true t ≠ Except.error (RunError.fatalExit msg)) ∧
    (∀ rows : List RawRow, load_filter true t ≠ Except.ok rows) := by
  have h1 : filter_open_date t = Except.error (RunError.keyError "Open Date") := by
    unfold filter_open_date
    rw [if_neg (by rw [h]; exact Bool.false_ne_true)]
  refine ⟨?_, ?_, ?_⟩ <;> simp [load_filter, h1]

/-- Claim C10 witness: a concrete table without an `Open Date` column
fails with the key error. -/
theorem missing_open_date_column_key_error_witness :
    load_filter true tNoDate = Except.error (RunError.keyError "Open Date") :=
  (missing_open_date_column_key_error tNoDate (by decide)).1

/-- Claim C3 counterexample: for the concrete record dated
2024-03-05, the cloud-sheet sink writes the date cell as
`"2024-03-05"`, which differs from the month/day/year renderings the
spec prescribes for that sink. -/
theorem cloud_sink_date_not_mdy :
    (sheets_rows [rExample]).head? = some (map_row rExample) ∧
    (map_row rExample).head? = some (Value.s "2024-03-05") ∧
    format_date_mdy_spec (some ⟨2024, 3, 5⟩) = "3/5/2024" ∧
    format_date_mdy_padded_spec (some ⟨2024, 3, 5⟩) = "03/05/2024" ∧
    Value.s "2024-03-05" ≠ Value.s "3/5/2024" ∧
    Value.s "2024-03-05" ≠ Value.s "03/05/2024" := by
  decide

/-- Claim C3 amended: both sinks write the date field through the same
formatter, rendering valid dates as ISO year-month-day text and
missing/unparseable dates as blank. -/
theorem date_rendering_iso_both_sinks :
    (∀ rs : List SourceRecord, sheets_rows rs = xlsx_rows rs) ∧
    (∀ r : SourceRecord, (map_row r).head? = some (Value.s (format_date r.openDate))) ∧
    (∀ d : Option CalDate, format_date d = format_date_iso_spec d) ∧
    format_date none = "" := by
  refine ⟨fun rs => rfl, fun r => rfl, ?_, rfl⟩
  intro d; cases d <;> rfl
